import Mathlib

/-!
Verification of the p5go bootstrap and handler-registration mechanism
(`p5.go`).  The JavaScript host is modelled as an explicit `World` state:
the document maps selectors to element ids, elements carry an `innerHTML`
string, and the global `p5` object is either defined or not.  `js.Value`
is modelled by `JsVal` (defined values carry an abstract id), `js.Func`
adapters by `JsFunc` (the caller-supplied Go callback they wrap, as an
abstract id, plus the canvas pointer the closure captured).  `Run` is a
function from a `World`, a selector and a registration list to a
`RunOutcome` recording the returned result, the mutated world, the trace
of document-level effects and the trace of the entry-point closure's
actions.  The external p5 library is modelled per its contract: its
constructor invokes the supplied sketch closure exactly once,
synchronously, passing the freshly created instance value.
-/

namespace P5go

/-- A JavaScript value as seen through `syscall/js`: either `undefined`
or a defined value carrying an abstract identity. -/
inductive JsVal where
  | undefined
  | value (id : Nat)
deriving DecidableEq, Repr

/-- `js.Value.IsUndefined` / comparison of `Type()` with `TypeUndefined`. -/
def JsVal.isUndefined : JsVal → Bool
  | .undefined => true
  | .value _ => false

/-- A `js.Func` produced by `js.FuncOf` in one of the thirteen builder
functions.  The Go closure captures the caller-supplied callback
(`handler`, an abstract identity) and the canvas pointer `captured`. -/
structure JsFunc where
  handler : Nat
  captured : Nat
deriving DecidableEq, Repr

/-- Invoking an installed adapter.  The external runtime supplies a
receiver and an argument list; the Go closure body is
`handler(c); return nil`: it performs exactly one call of the wrapped
callback with the captured canvas pointer and ignores the receiver and
the arguments.  The result is the list of (callback, canvas-pointer)
calls performed. -/
def JsFunc.invoke (f : JsFunc) (_ : JsVal) (_ : List JsVal) : List (Nat × Nat) :=
  [(f.handler, f.captured)]

/-- First-match lookup in an association list (Go map read; a missing
key yields the zero value, modelled as `none`). -/
def lookupAssoc {α β : Type} [DecidableEq α] : List (α × β) → α → Option β
  | [], _ => none
  | (k, v) :: rest, k2 => if k = k2 then some v else lookupAssoc rest k2

/-- Overwriting insertion in an association list (Go map assignment
`m[k] = v`). -/
def setAssoc {α β : Type} [DecidableEq α] : List (α × β) → α → β → List (α × β)
  | [], k, v => [(k, v)]
  | (k2, v2) :: rest, k, v =>
      if k2 = k then (k, v) :: rest else (k2, v2) :: setAssoc rest k v

/-- The `Canvas` struct: the externally owned p5 instance reference and
the `funcHandlers` registry mapping hook names to adapters. -/
structure Canvas where
  p5Instance : JsVal
  funcHandlers : List (String × JsFunc)
deriving DecidableEq, Repr

/-- The `Func` option type `func(c *Canvas)`: the canvas is a pointer,
modelled as the pointer's identity plus the state of the pointed-to
canvas, returning the updated state. -/
def Func : Type := Nat → Canvas → Canvas

/-- `js.FuncOf` applied to the builder closure wrapping `handler` around
the captured canvas pointer. -/
def funcOf (handler : Nat) (cref : Nat) : JsFunc :=
  { handler := handler, captured := cref }

/-- Builder `Preload`: registers the adapter under `"preload"`. -/
def Preload (handler : Nat) : Func := fun cref c =>
  { c with funcHandlers := setAssoc c.funcHandlers "preload" (funcOf handler cref) }

/-- Builder `Setup`: registers the adapter under `"setup"`. -/
def Setup (handler : Nat) : Func := fun cref c =>
  { c with funcHandlers := setAssoc c.funcHandlers "setup" (funcOf handler cref) }

/-- Builder `Draw`: registers the adapter under `"draw"`. -/
def Draw (handler : Nat) : Func := fun cref c =>
  { c with funcHandlers := setAssoc c.funcHandlers "draw" (funcOf handler cref) }

/-- Builder `MouseMoved`: registers the adapter under `"mouseMoved"`. -/
def MouseMoved (handler : Nat) : Func := fun cref c =>
  { c with funcHandlers := setAssoc c.funcHandlers "mouseMoved" (funcOf handler cref) }

/-- Builder `MouseDragged`: registers the adapter under `"mouseDragged"`. -/
def MouseDragged (handler : Nat) : Func := fun cref c =>
  { c with funcHandlers := setAssoc c.funcHandlers "mouseDragged" (funcOf handler cref) }

/-- Builder `MousePressed`: registers the adapter under `"mousePressed"`. -/
def MousePressed (handler : Nat) : Func := fun cref c =>
  { c with funcHandlers := setAssoc c.funcHandlers "mousePressed" (funcOf handler cref) }

/-- Builder `MouseReleased`: registers the adapter under `"mouseReleased"`. -/
def MouseReleased (handler : Nat) : Func := fun cref c =>
  { c with funcHandlers := setAssoc c.funcHandlers "mouseReleased" (funcOf handler cref) }

/-- Builder `MouseClicked`: registers the adapter under `"mouseClicked"`. -/
def MouseClicked (handler : Nat) : Func := fun cref c =>
  { c with funcHandlers := setAssoc c.funcHandlers "mouseClicked" (funcOf handler cref) }

/-- Builder `DoubleClicked`: registers the adapter under `"doubleClicked"`. -/
def DoubleClicked (handler : Nat) : Func := fun cref c =>
  { c with funcHandlers := setAssoc c.funcHandlers "doubleClicked" (funcOf handler cref) }

/-- Builder `MouseWheel`: registers the adapter under `"mouseWheel"`. -/
def MouseWheel (handler : Nat) : Func := fun cref c =>
  { c with funcHandlers := setAssoc c.funcHandlers "mouseWheel" (funcOf handler cref) }

/-- Builder `KeyPressed`: registers the adapter under `"keyPressed"`. -/
def KeyPressed (handler : Nat) : Func := fun cref c =>
  { c with funcHandlers := setAssoc c.funcHandlers "keyPressed" (funcOf handler cref) }

/-- Builder `KeyReleased`: registers the adapter under `"keyReleased"`. -/
def KeyReleased (handler : Nat) : Func := fun cref c =>
  { c with funcHandlers := setAssoc c.funcHandlers "keyReleased" (funcOf handler cref) }

/-- Builder `KeyTyped`: registers the adapter under `"keyTyped"`. -/
def KeyTyped (handler : Nat) : Func := fun cref c =>
  { c with funcHandlers := setAssoc c.funcHandlers "keyTyped" (funcOf handler cref) }

/-- A Registration: the value produced by one of the thirteen exported
builder functions, identified by which builder made it and the identity
of the caller-supplied callback it closes over. -/
inductive Registration where
  | preload (handler : Nat)
  | setup (handler : Nat)
  | draw (handler : Nat)
  | mouseMoved (handler : Nat)
  | mouseDragged (handler : Nat)
  | mousePressed (handler : Nat)
  | mouseReleased (handler : Nat)
  | mouseClicked (handler : Nat)
  | doubleClicked (handler : Nat)
  | mouseWheel (handler : Nat)
  | keyPressed (handler : Nat)
  | keyReleased (handler : Nat)
  | keyTyped (handler : Nat)
deriving DecidableEq, Repr

/-- The `Func` a Registration denotes: the corresponding builder applied
to its callback. -/
def Registration.toFunc : Registration → Func
  | .preload h => Preload h
  | .setup h => Setup h
  | .draw h => Draw h
  | .mouseMoved h => MouseMoved h
  | .mouseDragged h => MouseDragged h
  | .mousePressed h => MousePressed h
  | .mouseReleased h => MouseReleased h
  | .mouseClicked h => MouseClicked h
  | .doubleClicked h => DoubleClicked h
  | .mouseWheel h => MouseWheel h
  | .keyPressed h => KeyPressed h
  | .keyReleased h => KeyReleased h
  | .keyTyped h => KeyTyped h

/-- The fixed hook name each builder registers under. -/
def Registration.hook : Registration → String
  | .preload _ => "preload"
  | .setup _ => "setup"
  | .draw _ => "draw"
  | .mouseMoved _ => "mouseMoved"
  | .mouseDragged _ => "mouseDragged"
  | .mousePressed _ => "mousePressed"
  | .mouseReleased _ => "mouseReleased"
  | .mouseClicked _ => "mouseClicked"
  | .doubleClicked _ => "doubleClicked"
  | .mouseWheel _ => "mouseWheel"
  | .keyPressed _ => "keyPressed"
  | .keyReleased _ => "keyReleased"
  | .keyTyped _ => "keyTyped"

/-- The caller-supplied callback a Registration closes over. -/
def Registration.fn : Registration → Nat
  | .preload h => h
  | .setup h => h
  | .draw h => h
  | .mouseMoved h => h
  | .mouseDragged h => h
  | .mousePressed h => h
  | .mouseReleased h => h
  | .mouseClicked h => h
  | .doubleClicked h => h
  | .mouseWheel h => h
  | .keyPressed h => h
  | .keyReleased h => h
  | .keyTyped h => h

/-- The closed set of hook names the external runtime accepts. -/
def hookNames : List String :=
  ["preload", "setup", "draw", "mouseMoved", "mouseDragged", "mousePressed",
   "mouseReleased", "mouseClicked", "doubleClicked", "mouseWheel",
   "keyPressed", "keyReleased", "keyTyped"]

/-- `Canvas.Validate`: checks, in order, that the p5 instance reference
is defined, that a `"setup"` adapter is registered, and that a `"draw"`
adapter is registered; returns the first failure's error message (a Go
map read of a missing key yields the zero `js.Func`, which is
undefined). -/
def Canvas.Validate (c : Canvas) : Option String :=
  if c.p5Instance.isUndefined then some "p5.js is not loaded"
  else if (lookupAssoc c.funcHandlers "setup").isNone then
    some "setup function is not defined"
  else if (lookupAssoc c.funcHandlers "draw").isNone then
    some "draw function is not defined"
  else none

/-- The host world: the document (selector resolution), element
contents, whether the global `p5` object is defined, whether an injected
script's `onload` signal ever fires, and a counter for fresh value
identities. -/
structure World where
  doc : List (String × Nat)
  elemHTML : List (Nat × String)
  p5Defined : Bool
  p5LoadFires : Bool
  nextId : Nat
deriving DecidableEq, Repr

/-- Document-level observable effects of `Run`. -/
inductive Event where
  | clearHTML (elem : Nat)
  | injectScript (src : String)
  | constructP5
deriving DecidableEq, Repr

/-- Actions taken inside the entry-point (sketch) closure: applying the
i-th supplied Registration, or installing an adapter onto the instance
under a hook name. -/
inductive SketchEvent where
  | applied (idx : Nat)
  | installed (hook : String) (adapter : JsFunc)
deriving DecidableEq, Repr

/-- The result of `Run`: the nil return, an error value, or blocking
forever on the script-load channel. -/
inductive RunResult where
  | ok
  | err (msg : String)
  | hang
deriving DecidableEq, Repr

/-- Everything observable about one call of `Run`. -/
structure RunOutcome where
  result : RunResult
  world : World
  events : List Event
  sketchEvents : List SketchEvent
  canvas : Option Canvas
deriving DecidableEq, Repr

/-- The version-pinned URL of the injected p5 script. -/
def p5ScriptSrc : String := "https://cdn.jsdelivr.net/npm/p5@1.11.2/lib/p5.min.js"

/-- The Clear step: `container.Set("innerHTML", "")`. -/
def clearMount (w : World) (elem : Nat) : World :=
  { w with elemHTML := setAssoc w.elemHTML elem "" }

/-- Applying the supplied registrations to the canvas in order
(`for _, f := range fs { f(c) }`). -/
def applyRegs : List Registration → Nat → Canvas → Canvas
  | [], _, c => c
  | r :: rest, cref, c => applyRegs rest cref (r.toFunc cref c)

/-- The tail of `Run` once the p5 constructor is available: create the
canvas, construct the external instance (whose constructor synchronously
invokes the sketch closure: it stores the instance, applies every
registration in order, then installs every registry entry onto the
instance), and run `Validate`. -/
def runConstruct (w : World) (evs : List Event) (rs : List Registration) : RunOutcome :=
  let cref := w.nextId
  let inst : JsVal := .value (w.nextId + 1)
  let c0 : Canvas := { p5Instance := .undefined, funcHandlers := [] }
  let c1 : Canvas := { c0 with p5Instance := inst }
  let c2 := applyRegs rs cref c1
  let appEvs := (List.range rs.length).map SketchEvent.applied
  let instEvs := c2.funcHandlers.map (fun p => SketchEvent.installed p.1 p.2)
  let res := match c2.Validate with
    | some msg => RunResult.err msg
    | none => RunResult.ok
  { result := res
    world := { w with nextId := w.nextId + 2 }
    events := evs ++ [Event.constructP5]
    sketchEvents := appEvs ++ instEvs
    canvas := some c2 }

/-- `Run`: resolve the mount point (returning the formatted error when
the selector matches nothing), clear its content, inject the p5 script
and wait on the one-shot load channel when the global `p5` is undefined
(hanging forever when the signal never fires), then construct and
validate. -/
def Run (w : World) (query : String) (rs : List Registration) : RunOutcome :=
  match lookupAssoc w.doc query with
  | none =>
      { result := .err (query ++ " is not match")
        world := w
        events := []
        sketchEvents := []
        canvas := none }
  | some elem =>
      let w1 := clearMount w elem
      if w1.p5Defined then
        runConstruct w1 [Event.clearHTML elem] rs
      else if w1.p5LoadFires then
        runConstruct { w1 with p5Defined := true }
          [Event.clearHTML elem, Event.injectScript p5ScriptSrc] rs
      else
        { result := .hang
          world := w1
          events := [Event.clearHTML elem, Event.injectScript p5ScriptSrc]
          sketchEvents := []
          canvas := none }

/-- The adapters installed onto the external instance (the materialised
registry); empty when construction was never reached. -/
def RunOutcome.installs (o : RunOutcome) : List (String × JsFunc) :=
  match o.canvas with
  | some c => c.funcHandlers
  | none => []

/-- The instance reference held by the canvas `Run` created; undefined
when construction was never reached. -/
def RunOutcome.instanceVal (o : RunOutcome) : JsVal :=
  match o.canvas with
  | some c => c.p5Instance
  | none => .undefined

/-- The last registration in the list whose builder targets hook `h`. -/
def lastFor (h : String) : List Registration → Option Registration
  | [] => none
  | r :: rest =>
      match lastFor h rest with
      | some r2 => some r2
      | none => if r.hook = h then some r else none

/-- The spec's description of `Validate` as a fixed ordered list of
(check, named error) pairs. -/
def validateChecks (c : Canvas) : List (Bool × String) :=
  [(!c.p5Instance.isUndefined, "p5.js is not loaded"),
   ((lookupAssoc c.funcHandlers "setup").isSome, "setup function is not defined"),
   ((lookupAssoc c.funcHandlers "draw").isSome, "draw function is not defined")]

/-- The spec's short-circuit rule: report the first failing check only. -/
def firstFailureIn : List (Bool × String) → Option String
  | [] => none
  | (ok, msg) :: rest => if ok then firstFailureIn rest else some msg

/-- A concrete world used to evaluate the theorems: one element
reachable as `"#app"` with stale content, p5 already defined. -/
def demoWorld : World :=
  { doc := [("#app", 0)], elemHTML := [(0, "old")], p5Defined := true,
    p5LoadFires := true, nextId := 5 }

/-- A concrete world where p5 is undefined and the injected script's
load signal never fires. -/
def coldWorld : World :=
  { doc := [("#app", 0)], elemHTML := [(0, "old")], p5Defined := false,
    p5LoadFires := false, nextId := 5 }

/-- A concrete world whose mount point is already empty. -/
def emptyMountWorld : World :=
  { doc := [("#app", 0)], elemHTML := [(0, "")], p5Defined := true,
    p5LoadFires := true, nextId := 5 }

/-! ### Helper lemmas about the registry operations -/

theorem lookupAssoc_setAssoc_self {α β : Type} [DecidableEq α]
    (m : List (α × β)) (k : α) (v : β) :
    lookupAssoc (setAssoc m k v) k = some v := by
  induction m with
  | nil => simp [setAssoc, lookupAssoc]
  | cons p rest ih =>
      obtain ⟨k2, v2⟩ := p
      by_cases h : k2 = k
      · simp [setAssoc, h, lookupAssoc]
      · simp [setAssoc, h, lookupAssoc, ih]

theorem lookupAssoc_setAssoc_ne {α β : Type} [DecidableEq α]
    (m : List (α × β)) (k : α) (v : β) (k2 : α) (hne : k ≠ k2) :
    lookupAssoc (setAssoc m k v) k2 = lookupAssoc m k2 := by
  induction m with
  | nil => simp [setAssoc, lookupAssoc, hne]
  | cons p rest ih =>
      obtain ⟨k3, v3⟩ := p
      by_cases h : k3 = k
      · subst h
        simp [setAssoc, lookupAssoc, hne]
      · simp [setAssoc, h, lookupAssoc, ih]

theorem setAssoc_of_lookup_eq {α β : Type} [DecidableEq α]
    {m : List (α × β)} {k : α} {v : β} (hl : lookupAssoc m k = some v) :
    setAssoc m k v = m := by
  induction m with
  | nil => simp [lookupAssoc] at hl
  | cons p rest ih =>
      obtain ⟨k2, v2⟩ := p
      by_cases h : k2 = k
      · subst h
        simp [lookupAssoc] at hl
        simp [setAssoc, hl]
      · simp [lookupAssoc, h] at hl
        simp [setAssoc, h, ih hl]

theorem mem_setAssoc {α β : Type} [DecidableEq α]
    {m : List (α × β)} {k : α} {v : β} {p : α × β}
    (hp : p ∈ setAssoc m k v) : p = (k, v) ∨ p ∈ m := by
  induction m with
  | nil => simpa [setAssoc] using hp
  | cons q rest ih =>
      obtain ⟨k2, v2⟩ := q
      by_cases h : k2 = k
      · simp [setAssoc, h] at hp
        rcases hp with hp | hp
        · exact Or.inl (by simp [hp])
        · exact Or.inr (List.mem_cons_of_mem _ hp)
      · simp only [setAssoc, if_neg h, List.mem_cons] at hp
        rcases hp with hp | hp
        · exact Or.inr (by simp [hp])
        · rcases ih hp with hp2 | hp2
          · exact Or.inl hp2
          · exact Or.inr (List.mem_cons_of_mem _ hp2)

/-! ### Helper lemmas about Registrations and applyRegs -/

theorem Registration.toFunc_eq (r : Registration) (cref : Nat) (c : Canvas) :
    r.toFunc cref c =
      { c with funcHandlers := setAssoc c.funcHandlers r.hook (funcOf r.fn cref) } := by
  cases r <;> rfl

theorem applyRegs_p5Instance (rs : List Registration) (cref : Nat) (c : Canvas) :
    (applyRegs rs cref c).p5Instance = c.p5Instance := by
  induction rs generalizing c with
  | nil => rfl
  | cons r rest ih => rw [applyRegs, ih, Registration.toFunc_eq]

theorem applyRegs_lookup (rs : List Registration) (cref : Nat) (c : Canvas) (h : String) :
    lookupAssoc (applyRegs rs cref c).funcHandlers h =
      match lastFor h rs with
      | some r => some (funcOf r.fn cref)
      | none => lookupAssoc c.funcHandlers h := by
  induction rs generalizing c with
  | nil => rfl
  | cons r rest ih =>
      rw [applyRegs, ih, Registration.toFunc_eq]
      cases hl : lastFor h rest with
      | some r2 => simp [lastFor, hl]
      | none =>
          simp only [lastFor, hl]
          by_cases hh : r.hook = h
          · subst hh
            simp [lookupAssoc_setAssoc_self]
          · simp [hh, lookupAssoc_setAssoc_ne _ _ _ _ hh]

theorem applyRegs_mem (rs : List Registration) (cref : Nat) (c : Canvas)
    {h : String} {f : JsFunc}
    (hm : (h, f) ∈ (applyRegs rs cref c).funcHandlers) :
    (h, f) ∈ c.funcHandlers ∨ ∃ r, r ∈ rs ∧ h = r.hook ∧ f = funcOf r.fn cref := by
  induction rs generalizing c with
  | nil => exact Or.inl hm
  | cons r rest ih =>
      rw [applyRegs] at hm
      rcases ih _ hm with hmem | ⟨r2, hr2, hh, hf⟩
      · rw [Registration.toFunc_eq] at hmem
        rcases mem_setAssoc hmem with heq | hmem2
        · refine Or.inr ⟨r, List.mem_cons_self _ _, ?_, ?_⟩
          · exact congrArg Prod.fst heq
          · exact congrArg Prod.snd heq
        · exact Or.inl hmem2
      · exact Or.inr ⟨r2, List.mem_cons_of_mem _ hr2, hh, hf⟩

theorem lastFor_none_iff (h : String) (rs : List Registration) :
    lastFor h rs = none ↔ rs.any (fun r => r.hook == h) = false := by
  induction rs with
  | nil => simp [lastFor]
  | cons r rest ih =>
      cases hl : lastFor h rest with
      | some r2 =>
          have : rest.any (fun r => r.hook == h) = true := by
            by_contra hfalse
            rw [(ih).mpr (Bool.eq_false_iff.mpr hfalse)] at hl
            cases hl
          simp [lastFor, hl, this]
      | none =>
          have hrest := ih.mp hl
          by_cases hh : r.hook = h
          · simp [lastFor, hl, hh]
          · simp [lastFor, hl, hh, hrest]

theorem validate_applyRegs (rs : List Registration) (cref idv : Nat) :
    (applyRegs rs cref { p5Instance := JsVal.value idv, funcHandlers := [] }).Validate =
      (if rs.any (fun r => r.hook == "setup") = false then
        some "setup function is not defined"
      else if rs.any (fun r => r.hook == "draw") = false then
        some "draw function is not defined"
      else none) := by
  have hp := applyRegs_p5Instance rs cref ⟨JsVal.value idv, []⟩
  have hs := applyRegs_lookup rs cref ⟨JsVal.value idv, []⟩ "setup"
  have hd := applyRegs_lookup rs cref ⟨JsVal.value idv, []⟩ "draw"
  rw [Canvas.Validate, hp, hs, hd]
  simp only [JsVal.isUndefined, Bool.false_eq_true, if_false]
  cases hanys : rs.any (fun r => r.hook == "setup") with
  | false =>
      rw [(lastFor_none_iff _ _).mpr hanys]
      simp [lookupAssoc]
  | true =>
      have hls : lastFor "setup" rs ≠ none := by
        intro hnone
        rw [(lastFor_none_iff _ _).mp hnone] at hanys
        cases hanys
      cases hlsv : lastFor "setup" rs with
      | none => exact absurd hlsv hls
      | some r =>
          cases hanyd : rs.any (fun r => r.hook == "draw") with
          | false =>
              rw [(lastFor_none_iff _ _).mpr hanyd]
              simp [lookupAssoc]
          | true =>
              have hld : lastFor "draw" rs ≠ none := by
                intro hnone
                rw [(lastFor_none_iff _ _).mp hnone] at hanyd
                cases hanyd
              cases hldv : lastFor "draw" rs with
              | none => exact absurd hldv hld
              | some r2 => simp

/-! ### Reduction lemmas for Run -/

theorem run_resolved_p5 (w : World) (q : String) (rs : List Registration) (e : Nat)
    (hm : lookupAssoc w.doc q = some e) (hp5 : w.p5Defined = true) :
    Run w q rs = runConstruct (clearMount w e) [Event.clearHTML e] rs := by
  simp only [Run, hm]
  simp [clearMount, hp5]

theorem run_resolved_load (w : World) (q : String) (rs : List Registration) (e : Nat)
    (hm : lookupAssoc w.doc q = some e) (hp5 : w.p5Defined = false)
    (hl : w.p5LoadFires = true) :
    Run w q rs = runConstruct { clearMount w e with p5Defined := true }
      [Event.clearHTML e, Event.injectScript p5ScriptSrc] rs := by
  simp only [Run, hm]
  simp [clearMount, hp5, hl]

theorem run_resolved_hang (w : World) (q : String) (rs : List Registration) (e : Nat)
    (hm : lookupAssoc w.doc q = some e) (hp5 : w.p5Defined = false)
    (hl : w.p5LoadFires = false) :
    Run w q rs =
      { result := RunResult.hang
        world := clearMount w e
        events := [Event.clearHTML e, Event.injectScript p5ScriptSrc]
        sketchEvents := []
        canvas := none } := by
  simp only [Run, hm]
  simp [clearMount, hp5, hl]

theorem runConstruct_result (w : World) (evs : List Event) (rs : List Registration) :
    (runConstruct w evs rs).result =
      (if rs.any (fun r => r.hook == "setup") = false then
        RunResult.err "setup function is not defined"
      else if rs.any (fun r => r.hook == "draw") = false then
        RunResult.err "draw function is not defined"
      else RunResult.ok) := by
  simp only [runConstruct]
  rw [validate_applyRegs]
  cases rs.any (fun r => r.hook == "setup") <;>
    cases rs.any (fun r => r.hook == "draw") <;> simp

theorem runConstruct_ne_hang (w : World) (evs : List Event) (rs : List Registration) :
    (runConstruct w evs rs).result ≠ RunResult.hang := by
  rw [runConstruct_result]
  cases rs.any (fun r => r.hook == "setup") <;>
    cases rs.any (fun r => r.hook == "draw") <;> simp

theorem runConstruct_persists (w : World) (evs : List Event) (rs : List Registration)
    (e : Nat) (hclear : lookupAssoc w.elemHTML e = some "") :
    lookupAssoc (runConstruct w evs rs).world.elemHTML e = some "" ∧
    Event.constructP5 ∈ (runConstruct w evs rs).events ∧
    ((runConstruct w evs rs).instanceVal).isUndefined = false := by
  refine ⟨?_, ?_, ?_⟩
  · simpa [runConstruct] using hclear
  · simp [runConstruct]
  · simp [runConstruct, RunOutcome.instanceVal, applyRegs_p5Instance, JsVal.isUndefined]

/-! ### Claim theorems -/

/-- Claim C1: when the selector resolves to no element, Run returns the
mount-point-not-found error (whose message is the selector followed by
`" is not match"`, so it contains the selector), the world is unchanged
(no document mutation), the event trace is empty (no innerHTML clear, no
script injection, no p5 construction), the sketch closure never runs and
no canvas is created. -/
theorem run_mount_missing_no_effects (w : World) (q : String) (rs : List Registration)
    (hmiss : lookupAssoc w.doc q = none) :
    (Run w q rs).result = RunResult.err (q ++ " is not match") ∧
    (Run w q rs).world = w ∧
    (Run w q rs).events = [] ∧
    (Run w q rs).sketchEvents = [] ∧
    (Run w q rs).canvas = none := by
  simp [Run, hmiss]

/-- Witness for C1 at a concrete world and the unresolvable selector
`"#missing"`. -/
theorem run_mount_missing_no_effects_witness :
    lookupAssoc demoWorld.doc "#missing" = none ∧
    ((Run demoWorld "#missing" []).result = RunResult.err ("#missing" ++ " is not match") ∧
     (Run demoWorld "#missing" []).world = demoWorld ∧
     (Run demoWorld "#missing" []).events = [] ∧
     (Run demoWorld "#missing" []).sketchEvents = [] ∧
     (Run demoWorld "#missing" []).canvas = none) :=
  ⟨by decide, run_mount_missing_no_effects demoWorld "#missing" [] (by decide)⟩

/-- Claim C2: with a resolvable mount point and the p5 library present,
Run returns the error naming `"setup"` whenever no registration targets
the setup hook (even if draw is present), the error naming `"draw"`
whenever setup is present but no registration targets the draw hook, and
nil when both are present. -/
theorem run_missing_required_hook (w : World) (q : String) (rs : List Registration)
    (e : Nat) (hm : lookupAssoc w.doc q = some e) (hp5 : w.p5Defined = true) :
    (Run w q rs).result =
      (if rs.any (fun r => r.hook == "setup") = false then
        RunResult.err "setup function is not defined"
      else if rs.any (fun r => r.hook == "draw") = false then
        RunResult.err "draw function is not defined"
      else RunResult.ok) := by
  rw [run_resolved_p5 w q rs e hm hp5, runConstruct_result]

/-- Witness for C2: a registration list holding only a draw builder
yields the error naming setup. -/
theorem run_missing_required_hook_witness :
    lookupAssoc demoWorld.doc "#app" = some 0 ∧
    demoWorld.p5Defined = true ∧
    ((Run demoWorld "#app" [Registration.draw 7]).result =
      (if [Registration.draw 7].any (fun r => r.hook == "setup") = false then
        RunResult.err "setup function is not defined"
      else if [Registration.draw 7].any (fun r => r.hook == "draw") = false then
        RunResult.err "draw function is not defined"
      else RunResult.ok)) :=
  ⟨by decide, rfl,
    run_missing_required_hook demoWorld "#app" [Registration.draw 7] 0 (by decide) rfl⟩

/-- Claim C3: Validate agrees pointwise with the spec's description as a
short-circuit scan of the fixed ordered check list (instance defined,
setup present, draw present), and the three named errors are pairwise
distinct; in particular only the first failing check is reported and a
canvas passing all three yields no error. -/
theorem validate_matches_spec (c : Canvas) :
    Canvas.Validate c = firstFailureIn (validateChecks c) ∧
    ("p5.js is not loaded" ≠ "setup function is not defined" ∧
     "p5.js is not loaded" ≠ "draw function is not defined" ∧
     "setup function is not defined" ≠ "draw function is not defined") := by
  constructor
  · rw [Canvas.Validate]
    simp only [validateChecks, firstFailureIn]
    cases c.p5Instance.isUndefined <;>
      cases lookupAssoc c.funcHandlers "setup" <;>
        cases lookupAssoc c.funcHandlers "draw" <;> simp
  · refine ⟨by decide, by decide, by decide⟩

/-- Claim C4: under a resolvable mount point with p5 present, the
adapter installed for any hook name is exactly the one built by the last
registration in call order targeting that hook (map-overwrite
semantics), and hooks no registration targets stay uninstalled; entries
for different hook names are therefore independent of relative order. -/
theorem run_installs_last_registration (w : World) (q : String) (rs : List Registration)
    (e : Nat) (h : String)
    (hm : lookupAssoc w.doc q = some e) (hp5 : w.p5Defined = true) :
    lookupAssoc (Run w q rs).installs h =
      (lastFor h rs).map (fun r => funcOf r.fn w.nextId) := by
  rw [run_resolved_p5 w q rs e hm hp5]
  simp only [runConstruct, RunOutcome.installs]
  rw [show (clearMount w e).nextId = w.nextId from rfl]
  rw [applyRegs_lookup]
  cases lastFor h rs <;> simp [lookupAssoc]

/-- Witness for C4: `Setup fnA, Setup fnB` leaves the adapter wrapping
`fnB` bound under `"setup"`. -/
theorem run_installs_last_registration_witness :
    lookupAssoc demoWorld.doc "#app" = some 0 ∧
    demoWorld.p5Defined = true ∧
    lookupAssoc (Run demoWorld "#app" [Registration.setup 1, Registration.setup 2]).installs
        "setup" =
      (lastFor "setup" [Registration.setup 1, Registration.setup 2]).map
        (fun r => funcOf r.fn demoWorld.nextId) :=
  ⟨by decide, rfl,
    run_installs_last_registration demoWorld "#app"
      [Registration.setup 1, Registration.setup 2] 0 "setup" (by decide) rfl⟩

/-- Claim C5: inside the entry-point closure, the action trace is
exactly the applications of the supplied registrations, indexed in the
order the caller supplied them, followed by one installation per (hook
name, adapter) pair then present in the registry; no application occurs
after any installation. -/
theorem run_applies_then_installs (w : World) (q : String) (rs : List Registration)
    (e : Nat) (hm : lookupAssoc w.doc q = some e) (hp5 : w.p5Defined = true) :
    (Run w q rs).sketchEvents =
      (List.range rs.length).map SketchEvent.applied ++
        (Run w q rs).installs.map (fun p => SketchEvent.installed p.1 p.2) := by
  rw [run_resolved_p5 w q rs e hm hp5]
  simp [runConstruct, RunOutcome.installs]

/-- Witness for C5 at a concrete two-element registration list. -/
theorem run_applies_then_installs_witness :
    lookupAssoc demoWorld.doc "#app" = some 0 ∧
    demoWorld.p5Defined = true ∧
    (Run demoWorld "#app" [Registration.setup 1, Registration.draw 2]).sketchEvents =
      (List.range [Registration.setup 1, Registration.draw 2].length).map
          SketchEvent.applied ++
        (Run demoWorld "#app" [Registration.setup 1, Registration.draw 2]).installs.map
          (fun p => SketchEvent.installed p.1 p.2) :=
  ⟨by decide, rfl,
    run_applies_then_installs demoWorld "#app"
      [Registration.setup 1, Registration.draw 2] 0 (by decide) rfl⟩

/-- Counterexample to claim C6 as stated: at a call whose selector
resolves to no element while the global p5 object is undefined, Run
returns the mount error with an empty event trace — it neither injects
the script nor enters the wait — so "Run enters the library-acquisition
wait if and only if p5 is undefined at call time" is false without a
mount-resolution precondition. -/
theorem wait_iff_undefined_counterexample :
    (World.mk [] [] false true 0).p5Defined = false ∧
    (Run (World.mk [] [] false true 0) "#missing" []).events = [] ∧
    (Run (World.mk [] [] false true 0) "#missing" []).result =
      RunResult.err ("#missing" ++ " is not match") :=
  ⟨rfl, rfl, rfl⟩

/-- Claim C6 (amended with the mount point resolving): Run injects the
script — and with it enters the one-shot wait — exactly when the global
p5 object is undefined at call time, the injection being a single script
element pointing at the fixed version-pinned URL; Run hangs (never
proceeding to construction) exactly when p5 is undefined and the load
signal never fires, while with p5 already defined no injection occurs
and construction is reached without blocking. -/
theorem run_script_injection_wait (w : World) (q : String) (rs : List Registration)
    (e : Nat) (hm : lookupAssoc w.doc q = some e) :
    (Run w q rs).events =
      (if w.p5Defined then [Event.clearHTML e, Event.constructP5]
       else if w.p5LoadFires then
        [Event.clearHTML e, Event.injectScript p5ScriptSrc, Event.constructP5]
       else [Event.clearHTML e, Event.injectScript p5ScriptSrc]) ∧
    ((Run w q rs).result = RunResult.hang ↔
      (w.p5Defined = false ∧ w.p5LoadFires = false)) := by
  cases hp : w.p5Defined with
  | true =>
      rw [run_resolved_p5 w q rs e hm hp]
      refine ⟨by simp [runConstruct], ?_⟩
      constructor
      · intro hh
        exact absurd hh (runConstruct_ne_hang _ _ _)
      · rintro ⟨h1, h2⟩
        cases h1
  | false =>
      cases hl : w.p5LoadFires with
      | true =>
          rw [run_resolved_load w q rs e hm hp hl]
          refine ⟨by simp [runConstruct], ?_⟩
          constructor
          · intro hh
            exact absurd hh (runConstruct_ne_hang _ _ _)
          · rintro ⟨h1, h2⟩
            cases h2
      | false =>
          rw [run_resolved_hang w q rs e hm hp hl]
          exact ⟨by simp, by simp⟩

/-- Witness for the amended C6: undefined p5 whose load never fires,
resolvable mount — the script is injected at the pinned URL and Run
hangs. -/
theorem run_script_injection_wait_witness :
    lookupAssoc coldWorld.doc "#app" = some 0 ∧
    ((Run coldWorld "#app" []).events =
      (if coldWorld.p5Defined then [Event.clearHTML 0, Event.constructP5]
       else if coldWorld.p5LoadFires then
        [Event.clearHTML 0, Event.injectScript p5ScriptSrc, Event.constructP5]
       else [Event.clearHTML 0, Event.injectScript p5ScriptSrc]) ∧
     ((Run coldWorld "#app" []).result = RunResult.hang ↔
       (coldWorld.p5Defined = false ∧ coldWorld.p5LoadFires = false))) :=
  ⟨by decide, run_script_injection_wait coldWorld "#app" [] 0 (by decide)⟩

/-- Claim C7: whenever Run fails after the mount point resolved (with
the library available, so the failure is a Validate failure returned as
an ordinary error value), the side effects persist: the mount point's
content remains the empty string in the final world, the construction of
the external instance is in the event trace, and the canvas's instance
reference is still defined — no rollback, teardown or unbind happens on
the error path. -/
theorem run_error_effects_persist (w : World) (q : String) (rs : List Registration)
    (e : Nat) (msg : String)
    (hm : lookupAssoc w.doc q = some e)
    (havail : w.p5Defined = true ∨ w.p5LoadFires = true)
    (_herr : (Run w q rs).result = RunResult.err msg) :
    lookupAssoc (Run w q rs).world.elemHTML e = some "" ∧
    Event.constructP5 ∈ (Run w q rs).events ∧
    ((Run w q rs).instanceVal).isUndefined = false := by
  cases hp : w.p5Defined with
  | true =>
      rw [run_resolved_p5 w q rs e hm hp]
      exact runConstruct_persists _ _ _ _ (lookupAssoc_setAssoc_self _ _ _)
  | false =>
      have hl : w.p5LoadFires = true := by
        rcases havail with h | h
        · rw [hp] at h
          cases h
        · exact h
      rw [run_resolved_load w q rs e hm hp hl]
      exact runConstruct_persists _ _ _ _ (lookupAssoc_setAssoc_self _ _ _)

/-- Witness for C7: a run missing the setup hook errors while the
cleared mount content and the bound instance persist. -/
theorem run_error_effects_persist_witness :
    lookupAssoc demoWorld.doc "#app" = some 0 ∧
    (demoWorld.p5Defined = true ∨ demoWorld.p5LoadFires = true) ∧
    (Run demoWorld "#app" [Registration.draw 7]).result =
      RunResult.err "setup function is not defined" ∧
    (lookupAssoc (Run demoWorld "#app" [Registration.draw 7]).world.elemHTML 0 = some "" ∧
     Event.constructP5 ∈ (Run demoWorld "#app" [Registration.draw 7]).events ∧
     ((Run demoWorld "#app" [Registration.draw 7]).instanceVal).isUndefined = false) :=
  ⟨by decide, Or.inl rfl, by decide,
    run_error_effects_persist demoWorld "#app" [Registration.draw 7] 0
      "setup function is not defined" (by decide) (Or.inl rfl) (by decide)⟩

/-- Claim C8: the Clear step (writing the empty string into the mount
point's innerHTML) is a total operation producing no error value, and it
is idempotent: on an already-empty mount point it leaves the world
unchanged, and performing it twice equals performing it once. -/
theorem clear_mount_idempotent (w : World) (e : Nat)
    (hempty : lookupAssoc w.elemHTML e = some "") :
    clearMount w e = w ∧
    clearMount (clearMount w e) e = clearMount w e := by
  have h1 : clearMount w e = w := by
    rw [clearMount, setAssoc_of_lookup_eq hempty]
  refine ⟨h1, ?_⟩
  rw [h1]
  exact h1

/-- Witness for C8 at a concrete world whose mount point is empty. -/
theorem clear_mount_idempotent_witness :
    lookupAssoc emptyMountWorld.elemHTML 0 = some "" ∧
    (clearMount emptyMountWorld 0 = emptyMountWorld ∧
     clearMount (clearMount emptyMountWorld 0) 0 = clearMount emptyMountWorld 0) :=
  ⟨rfl, clear_mount_idempotent emptyMountWorld 0 rfl⟩

/-- Claim C9: every builder's Registration, applied to any canvas,
inserts exactly one adapter (wrapping the builder's callback and the
captured canvas pointer) under that builder's fixed hook name — one of
the thirteen accepted names — while leaving the canvas's instance
reference and every other hook's registry entry unchanged. -/
theorem builder_inserts_single_hook (r : Registration) (cref : Nat) (c : Canvas)
    (h : String) (hne : h ≠ r.hook) :
    (r.toFunc cref c).p5Instance = c.p5Instance ∧
    r.hook ∈ hookNames ∧
    lookupAssoc (r.toFunc cref c).funcHandlers r.hook = some (funcOf r.fn cref) ∧
    lookupAssoc (r.toFunc cref c).funcHandlers h = lookupAssoc c.funcHandlers h := by
  rw [Registration.toFunc_eq]
  refine ⟨rfl, ?_, ?_, ?_⟩
  · cases r <;> simp [Registration.hook, hookNames]
  · exact lookupAssoc_setAssoc_self _ _ _
  · exact lookupAssoc_setAssoc_ne _ _ _ _ hne.symm

/-- Witness for C9: `Setup` applied to the empty canvas touches only
the `"setup"` entry, checked against the untouched `"draw"` entry. -/
theorem builder_inserts_single_hook_witness :
    ("draw" : String) ≠ (Registration.setup 3).hook ∧
    (((Registration.setup 3).toFunc 4 (Canvas.mk JsVal.undefined [])).p5Instance =
        (Canvas.mk JsVal.undefined []).p5Instance ∧
     (Registration.setup 3).hook ∈ hookNames ∧
     lookupAssoc ((Registration.setup 3).toFunc 4 (Canvas.mk JsVal.undefined [])).funcHandlers
         (Registration.setup 3).hook = some (funcOf (Registration.setup 3).fn 4) ∧
     lookupAssoc ((Registration.setup 3).toFunc 4 (Canvas.mk JsVal.undefined [])).funcHandlers
         "draw" = lookupAssoc (Canvas.mk JsVal.undefined []).funcHandlers "draw") :=
  ⟨by decide,
    builder_inserts_single_hook (Registration.setup 3) 4 (Canvas.mk JsVal.undefined [])
      "draw" (by decide)⟩

/-- Claim C10: every adapter installed onto the instance by a run with a
resolvable mount point wraps the callback of one of the supplied
registrations and captures the canvas Run created; invoked by the
external runtime with any receiver and any argument list, it performs
exactly one call — of that callback, with that canvas — and the
runtime's event arguments are never forwarded. -/
theorem adapter_invokes_callback_once (w : World) (q : String) (rs : List Registration)
    (e : Nat) (h : String) (f : JsFunc) (recv : JsVal) (args : List JsVal)
    (hm : lookupAssoc w.doc q = some e) (hp5 : w.p5Defined = true)
    (hmem : (h, f) ∈ (Run w q rs).installs) :
    f.captured = w.nextId ∧
    (∃ r, r ∈ rs ∧ r.hook = h ∧ r.fn = f.handler) ∧
    JsFunc.invoke f recv args = [(f.handler, w.nextId)] := by
  rw [run_resolved_p5 w q rs e hm hp5] at hmem
  simp only [runConstruct, RunOutcome.installs] at hmem
  rcases applyRegs_mem _ _ _ hmem with habs | ⟨r, hr, hh, hf⟩
  · cases habs
  · subst hf
    exact ⟨rfl, ⟨r, hr, hh.symm, rfl⟩, rfl⟩

/-- Witness for C10: the installed setup adapter of a concrete run,
invoked with an arbitrary receiver and argument list. -/
theorem adapter_invokes_callback_once_witness :
    lookupAssoc demoWorld.doc "#app" = some 0 ∧
    demoWorld.p5Defined = true ∧
    ("setup", funcOf 3 5) ∈
      (Run demoWorld "#app" [Registration.setup 3, Registration.draw 4]).installs ∧
    ((funcOf 3 5).captured = demoWorld.nextId ∧
     (∃ r, r ∈ [Registration.setup 3, Registration.draw 4] ∧ r.hook = "setup" ∧
        r.fn = (funcOf 3 5).handler) ∧
     JsFunc.invoke (funcOf 3 5) (JsVal.value 9) [JsVal.value 11, JsVal.undefined] =
       [((funcOf 3 5).handler, demoWorld.nextId)]) :=
  ⟨by decide, rfl, by decide,
    adapter_invokes_callback_once demoWorld "#app"
      [Registration.setup 3, Registration.draw 4] 0 "setup" (funcOf 3 5)
      (JsVal.value 9) [JsVal.value 11, JsVal.undefined] (by decide) rfl (by decide)⟩

end P5go
